import Mathlib

/-!
Shallow embedding of the ToDo repository (NestJS backend + Next.js frontend,
MongoDB via Mongoose) for checking its natural-language specification.

Backend source: `src/backend/src/todo/todo.schema.ts`,
`src/backend/src/todo/todo.service.ts`, `src/backend/src/todo/todo.controller.ts`.
Frontend source: `src/frontend/src/app/page.tsx`.

Modelling decisions, each tied to the source:
* A MongoDB document id is modelled as a `Nat` issued by the store
  (Mongo generates a fresh unique `_id` on insert).
* Timestamps are `Nat` values of an external clock passed as `now`.
* The Mongo collection is a list of documents; `findById`-style operations
  act on the first (in a well-formed store: the unique) document whose
  `_id` matches, which is how a unique-`_id` collection behaves.
* Mongoose schema (`todo.schema.ts`): `title` is `required` (the default
  `required` validator for strings rejects the empty string), `completed`
  defaults to `false`, `description` is optional, `timestamps: true` stamps
  `createdAt`/`updatedAt` on save and re-stamps `updatedAt` on
  `findByIdAndUpdate`.
* `findByIdAndUpdate` runs no validators (Mongoose `runValidators` defaults
  to `false`), so the update path accepts an empty `title`.
* `findById`, `findByIdAndUpdate`, `findByIdAndDelete` resolve a missing id
  to `null`, modelled as `none`; a save rejected by validation is modelled
  as `Except.error`.
* The controller passes the raw route-parameter string to these queries,
  and Mongoose first casts it to an ObjectId; a string that fails the cast
  makes the query reject with a `CastError` instead of resolving to
  `null`. The cast is modelled by `castObjectId` and the string-level
  operations `findOneStr`, `updateStr`, `deleteStr`.
-/

/-- A persisted Todo document: `_id` plus the schema fields of
`todo.schema.ts` and the two `timestamps: true` fields. -/
structure Todo where
  id : Nat
  title : String
  description : Option String
  completed : Bool
  createdAt : Nat
  updatedAt : Nat
deriving Repr, DecidableEq

/-- Body of POST /todos as typed in the controller and service:
`{ title: string; description?: string }`. -/
structure CreateTodoDto where
  title : String
  description : Option String
deriving Repr, DecidableEq

/-- Body of PUT /todos/:id as typed in the controller and service:
`{ title?: string; completed?: boolean; description?: string }`.
An absent field is `none` (Mongoose drops `undefined` keys from the
update document). -/
structure UpdateTodoDto where
  title : Option String
  completed : Option Bool
  description : Option String
deriving Repr, DecidableEq

/-- The `todos` MongoDB collection together with the id generator. -/
structure Store where
  tasks : List Todo
  nextId : Nat
deriving Repr, DecidableEq

def Store.empty : Store := ⟨[], 0⟩

/-- Well-formedness that MongoDB guarantees for a real collection:
`_id` values are distinct, and every stored id was issued before the
next id to be generated. Every state reachable from `Store.empty`
through the service operations satisfies it. -/
def Store.WF (s : Store) : Prop :=
  (s.tasks.map Todo.id).Nodup ∧ ∀ t ∈ s.tasks, t.id < s.nextId

instance (s : Store) : Decidable s.WF := by
  unfold Store.WF; exact instDecidableAnd

/-- The data-model invariant of the spec: no persisted record has an
empty `title`. -/
def Store.titlesNonempty (s : Store) : Prop :=
  ∀ t ∈ s.tasks, t.title ≠ ""

instance (s : Store) : Decidable s.titlesNonempty := by
  unfold Store.titlesNonempty; infer_instance

namespace TodoService

/-- Mongoose validation error message format for a missing/empty required path. -/
def requiredTitleMsg : String :=
  "Todo validation failed: title: Path `title` is required."

/-- Embeds `TodoService.create`: `new this.todoModel(createTodoDto)` then
`.save()`. Save validates against the schema: `title` is `required`, and
Mongoose's default required check for a string is `v.length > 0`, so the
empty string is rejected with a `ValidationError`. On success the document
gets a fresh `_id`, `completed` defaults to `false`, and `timestamps: true`
stamps `createdAt = updatedAt = now`. -/
def create (now : Nat) (dto : CreateTodoDto) (s : Store) :
    Except String (Todo × Store) :=
  if dto.title = "" then
    .error requiredTitleMsg
  else
    let t : Todo := ⟨s.nextId, dto.title, dto.description, false, now, now⟩
    .ok (t, ⟨s.tasks ++ [t], s.nextId + 1⟩)

/-- Embeds `TodoService.findAll`: `this.todoModel.find().exec()`. -/
def findAll (s : Store) : List Todo :=
  s.tasks

/-- Embeds `TodoService.findOne`: `this.todoModel.findById(id).exec()`,
which resolves to the matching document or `null`. -/
def findOne (id : Nat) (s : Store) : Option Todo :=
  s.tasks.find? (fun t => t.id = id)

/-- The effect of `findByIdAndUpdate` on the matched document: each field
present in the update document is `$set`, absent fields are untouched,
and `timestamps: true` re-stamps `updatedAt`. No validator runs
(`runValidators` defaults to `false`), so an empty `title` is applied
as-is. -/
def applyUpdate (now : Nat) (dto : UpdateTodoDto) (t : Todo) : Todo :=
  { t with
    title := dto.title.getD t.title
    completed := dto.completed.getD t.completed
    description := match dto.description with
      | some d => some d
      | none => t.description
    updatedAt := now }

/-- Replaces the (first) document whose `_id` matches, returning the
updated document, as `findByIdAndUpdate` with `{ new: true }` does. -/
def updateFirst (now : Nat) (id : Nat) (dto : UpdateTodoDto) :
    List Todo → Option Todo × List Todo
  | [] => (none, [])
  | t :: ts =>
    if t.id = id then
      (some (applyUpdate now dto t), applyUpdate now dto t :: ts)
    else
      ((updateFirst now id dto ts).1, t :: (updateFirst now id dto ts).2)

/-- Embeds `TodoService.update`:
`this.todoModel.findByIdAndUpdate(id, updateTodoDto, { new: true }).exec()`.
Resolves to the post-update document, or `null` when no document has the
id (the store is then unchanged). -/
def update (now : Nat) (id : Nat) (dto : UpdateTodoDto) (s : Store) :
    Option Todo × Store :=
  let (r, ts) := updateFirst now id dto s.tasks
  (r, { s with tasks := ts })

/-- Removes the (first) document whose `_id` matches, returning it,
as `findByIdAndDelete` does. -/
def deleteFirst (id : Nat) : List Todo → Option Todo × List Todo
  | [] => (none, [])
  | t :: ts =>
    if t.id = id then (some t, ts)
    else ((deleteFirst id ts).1, t :: (deleteFirst id ts).2)

/-- Embeds `TodoService.delete`:
`this.todoModel.findByIdAndDelete(id).exec()`. Resolves to the removed
document as it existed before removal, or `null` when no document has
the id. -/
def delete (id : Nat) (s : Store) : Option Todo × Store :=
  let (r, ts) := deleteFirst id s.tasks
  (r, { s with tasks := ts })

end TodoService

/-- One hexadecimal character, as accepted by the Mongoose ObjectId cast. -/
def isHexChar (c : Char) : Bool :=
  c.isDigit || ('a' ≤ c && c ≤ 'f') || ('A' ≤ c && c ≤ 'F')

/-- Numeric value of one hexadecimal character. -/
def hexCharVal (c : Char) : Nat :=
  if c.isDigit then c.toNat - '0'.toNat
  else if 'a' ≤ c && c ≤ 'f' then c.toNat - 'a'.toNat + 10
  else c.toNat - 'A'.toNat + 10

/-- The cast Mongoose applies to the raw route-parameter string before
`findById`, `findByIdAndUpdate` and `findByIdAndDelete` query by `_id`:
a 24-character hexadecimal string casts to the ObjectId it denotes
(modelled by its numeric value), a 12-character string casts as the
legacy 12-byte form, and any other string fails the cast, which makes
the query reject with a `CastError`. -/
def castObjectId (str : String) : Option Nat :=
  if str.length = 24 && str.data.all isHexChar then
    some (str.data.foldl (fun acc c => acc * 16 + hexCharVal c) 0)
  else if str.length = 12 then
    some (str.data.foldl (fun acc c => acc * 256 + c.toNat) 0)
  else none

namespace TodoService

/-- Mongoose CastError message for a route parameter that fails the
ObjectId cast. -/
def castErrorMsg (str : String) : String :=
  "Cast to ObjectId failed for value \"" ++ str ++
    "\" (type string) at path \"_id\" for model \"Todo\""

/-- `TodoService.findOne` on the raw string id the controller passes in:
`this.todoModel.findById(id)` first casts `id` to an ObjectId; a failed
cast rejects the query with a `CastError`, a successful cast resolves
exactly as `findOne`. -/
def findOneStr (str : String) (s : Store) : Except String (Option Todo) :=
  match castObjectId str with
  | none => .error (castErrorMsg str)
  | some id => .ok (findOne id s)

/-- `TodoService.update` on the raw string id: a failed ObjectId cast
rejects with a `CastError`, a successful cast resolves exactly as
`update`. -/
def updateStr (now : Nat) (str : String) (dto : UpdateTodoDto) (s : Store) :
    Except String (Option Todo × Store) :=
  match castObjectId str with
  | none => .error (castErrorMsg str)
  | some id => .ok (update now id dto s)

/-- `TodoService.delete` on the raw string id: a failed ObjectId cast
rejects with a `CastError`, a successful cast resolves exactly as
`delete`. -/
def deleteStr (str : String) (s : Store) : Except String (Option Todo × Store) :=
  match castObjectId str with
  | none => .error (castErrorMsg str)
  | some id => .ok (delete id s)

end TodoService

/-- Response body shapes the NestJS layer can produce: a serialized
document, a serialized array, the default exception filter's JSON error
body, or the empty body NestJS sends when a handler returns `null`. -/
inductive HttpBody
  | task (t : Todo)
  | tasks (ts : List Todo)
  | err (statusCode : Nat) (message : String)
  | empty
deriving Repr, DecidableEq

structure HttpResponse where
  status : Nat
  body : HttpBody
deriving Repr, DecidableEq

namespace TodoController

/-- Embeds POST /todos (`TodoController.create`): a bare pass-through to
the service. NestJS sends 201 for a successful POST handler. A Mongoose
`ValidationError` thrown by `save()` is not a NestJS `HttpException`, so
the default exception filter turns it into a 500 Internal Server Error. -/
def create (now : Nat) (dto : CreateTodoDto) (s : Store) :
    HttpResponse × Store :=
  match TodoService.create now dto s with
  | .ok (t, s') => (⟨201, .task t⟩, s')
  | .error _ => (⟨500, .err 500 "Internal server error"⟩, s)

/-- Embeds GET /todos (`TodoController.findAll`). -/
def findAll (s : Store) : HttpResponse :=
  ⟨200, .tasks (TodoService.findAll s)⟩

/-- Embeds GET /todos/:id (`TodoController.findOne`): pass-through; a
`null` from the service is serialized by NestJS as a 200 with an empty
body. -/
def findOne (id : Nat) (s : Store) : HttpResponse :=
  match TodoService.findOne id s with
  | some t => ⟨200, .task t⟩
  | none => ⟨200, .empty⟩

/-- Embeds PUT /todos/:id (`TodoController.update`): pass-through; 200
with the updated document, or 200 with an empty body when the service
resolves to `null`. -/
def update (now : Nat) (id : Nat) (dto : UpdateTodoDto) (s : Store) :
    HttpResponse × Store :=
  match TodoService.update now id dto s with
  | (some t, s') => (⟨200, .task t⟩, s')
  | (none, s') => (⟨200, .empty⟩, s')

/-- Embeds DELETE /todos/:id (`TodoController.delete`): pass-through; 200
with the removed document, or 200 with an empty body when the service
resolves to `null`. -/
def delete (id : Nat) (s : Store) : HttpResponse × Store :=
  match TodoService.delete id s with
  | (some t, s') => (⟨200, .task t⟩, s')
  | (none, s') => (⟨200, .empty⟩, s')

end TodoController

/-- Outcome of a browser `fetch` call as observed by the handlers in
`page.tsx`: either a response arrived (carrying its `ok` flag) or the
promise rejected (network failure), entering the `catch` block. -/
inductive FetchResult
  | response (ok : Bool)
  | thrown
deriving Repr, DecidableEq

namespace Page

/-- The guard `!someString.trim()` used by `createTodo` and `saveEdit`:
it is truthy exactly when the trimmed string is empty, i.e. when every
character of the string is whitespace. -/
def isBlank (s : String) : Bool :=
  s.data.all Char.isWhitespace

/-- Embeds `createTodo` in `page.tsx`, projected onto whether
`fetchTodos()` is re-issued: the handler bails out when
`!title.trim()`, and calls `fetchTodos()` only inside
`if (response.ok) { ... }`; the `catch` block does not re-fetch. -/
def createTodoRefetches (title : String) (r : FetchResult) : Bool :=
  if isBlank title then false
  else
    match r with
    | .response ok => ok
    | .thrown => false

/-- Embeds `toggleComplete` in `page.tsx`, projected onto whether
`fetchTodos()` is re-issued: it runs after `await fetch(...)` for any
response, but the `catch` block does not re-fetch. -/
def toggleCompleteRefetches (r : FetchResult) : Bool :=
  match r with
  | .response _ => true
  | .thrown => false

/-- Embeds `saveEdit` in `page.tsx`, projected onto whether
`fetchTodos()` is re-issued: the handler bails out when
`!editTitle.trim()`; otherwise it re-fetches after any response, but
the `catch` block does not re-fetch. -/
def saveEditRefetches (editTitle : String) (r : FetchResult) : Bool :=
  if isBlank editTitle then false
  else
    match r with
    | .response _ => true
    | .thrown => false

/-- Embeds `deleteTodo` in `page.tsx`, projected onto whether
`fetchTodos()` is re-issued: the handler bails out when the user
cancels the `confirm` dialog; otherwise it re-fetches after any
response, but the `catch` block does not re-fetch. -/
def deleteTodoRefetches (confirmed : Bool) (r : FetchResult) : Bool :=
  if confirmed = false then false
  else
    match r with
    | .response _ => true
    | .thrown => false

end Page

/-!
Helper lemmas about the list-level operations, shared by the claim
theorems below.
-/

namespace TodoService

theorem applyUpdate_id (now : Nat) (dto : UpdateTodoDto) (t : Todo) :
    (applyUpdate now dto t).id = t.id := rfl

theorem applyUpdate_createdAt (now : Nat) (dto : UpdateTodoDto) (t : Todo) :
    (applyUpdate now dto t).createdAt = t.createdAt := rfl

theorem updateFirst_fst (now id : Nat) (dto : UpdateTodoDto) :
    ∀ l : List Todo,
      (updateFirst now id dto l).1 =
        (l.find? (fun t => t.id = id)).map (applyUpdate now dto)
  | [] => rfl
  | t :: ts => by
    by_cases h : t.id = id
    · simp [updateFirst, h]
    · simp [updateFirst, h, updateFirst_fst now id dto ts]

theorem updateFirst_snd_of_find?_none (now id : Nat) (dto : UpdateTodoDto) :
    ∀ l : List Todo, l.find? (fun t => t.id = id) = none →
      updateFirst now id dto l = (none, l)
  | [] => fun _ => rfl
  | t :: ts => by
    intro hn
    by_cases h : t.id = id
    · rw [List.find?_cons_of_pos _ (by simpa using h)] at hn
      exact absurd hn (by simp)
    · rw [List.find?_cons_of_neg _ (by simpa using h)] at hn
      have ih := updateFirst_snd_of_find?_none now id dto ts hn
      simp [updateFirst, h, ih]

theorem find?_updateFirst_self (now id : Nat) (dto : UpdateTodoDto) :
    ∀ l : List Todo,
      ((updateFirst now id dto l).2).find? (fun t => t.id = id) =
        (l.find? (fun t => t.id = id)).map (applyUpdate now dto)
  | [] => rfl
  | t :: ts => by
    by_cases h : t.id = id
    · simp [updateFirst, h, applyUpdate_id]
    · simp [updateFirst, h, find?_updateFirst_self now id dto ts]

theorem find?_updateFirst_other (now id id' : Nat) (dto : UpdateTodoDto)
    (hne : id' ≠ id) :
    ∀ l : List Todo,
      ((updateFirst now id dto l).2).find? (fun t => t.id = id') =
        l.find? (fun t => t.id = id')
  | [] => rfl
  | t :: ts => by
    by_cases h : t.id = id
    · have h' : ¬ (applyUpdate now dto t).id = id' := by
        rw [applyUpdate_id, h]; exact fun e => hne e.symm
      have h'' : ¬ t.id = id' := by rw [h]; exact fun e => hne e.symm
      simp only [updateFirst, if_pos h]
      rw [List.find?_cons_of_neg _ (by simpa using h'),
        List.find?_cons_of_neg _ (by simpa using h'')]
    · simp only [updateFirst, if_neg h]
      by_cases hp : t.id = id'
      · rw [List.find?_cons_of_pos _ (by simpa using hp),
          List.find?_cons_of_pos _ (by simpa using hp)]
      · rw [List.find?_cons_of_neg _ (by simpa using hp),
          List.find?_cons_of_neg _ (by simpa using hp)]
        exact find?_updateFirst_other now id id' dto hne ts

theorem deleteFirst_fst (id : Nat) :
    ∀ l : List Todo,
      (deleteFirst id l).1 = l.find? (fun t => t.id = id)
  | [] => rfl
  | t :: ts => by
    by_cases h : t.id = id
    · simp [deleteFirst, h]
    · simp [deleteFirst, h, deleteFirst_fst id ts]

theorem deleteFirst_snd_of_find?_none (id : Nat) :
    ∀ l : List Todo, l.find? (fun t => t.id = id) = none →
      deleteFirst id l = (none, l)
  | [] => fun _ => rfl
  | t :: ts => by
    intro hn
    by_cases h : t.id = id
    · rw [List.find?_cons_of_pos _ (by simpa using h)] at hn
      exact absurd hn (by simp)
    · rw [List.find?_cons_of_neg _ (by simpa using h)] at hn
      have ih := deleteFirst_snd_of_find?_none id ts hn
      simp [deleteFirst, h, ih]

theorem find?_deleteFirst_other (id id' : Nat) (hne : id' ≠ id) :
    ∀ l : List Todo,
      ((deleteFirst id l).2).find? (fun t => t.id = id') =
        l.find? (fun t => t.id = id')
  | [] => rfl
  | t :: ts => by
    by_cases h : t.id = id
    · have h'' : ¬ t.id = id' := by rw [h]; exact fun e => hne e.symm
      simp only [deleteFirst, if_pos h]
      rw [List.find?_cons_of_neg _ (by simpa using h'')]
    · simp only [deleteFirst, if_neg h]
      by_cases hp : t.id = id'
      · rw [List.find?_cons_of_pos _ (by simpa using hp),
          List.find?_cons_of_pos _ (by simpa using hp)]
      · rw [List.find?_cons_of_neg _ (by simpa using hp),
          List.find?_cons_of_neg _ (by simpa using hp)]
        exact find?_deleteFirst_other id id' hne ts

theorem find?_deleteFirst_self (id : Nat) :
    ∀ l : List Todo, (l.map Todo.id).Nodup →
      ((deleteFirst id l).2).find? (fun t => t.id = id) = none
  | [] => fun _ => rfl
  | t :: ts => by
    intro hnd
    rw [List.map_cons, List.nodup_cons] at hnd
    by_cases h : t.id = id
    · have hts : ∀ x ∈ ts, ¬ (x.id = id) := by
        intro x hx he
        exact hnd.1 (by rw [h, ← he]; exact List.mem_map_of_mem Todo.id hx)
      simp only [deleteFirst, if_pos h]
      exact List.find?_eq_none.mpr (by simpa using hts)
    · simp only [deleteFirst, if_neg h]
      have htail := find?_deleteFirst_self id ts hnd.2
      rw [List.find?_cons_of_neg _ (by simpa using h)]
      exact htail

theorem mem_updateFirst_snd (now id : Nat) (dto : UpdateTodoDto) :
    ∀ (l : List Todo) (x : Todo), x ∈ (updateFirst now id dto l).2 →
      x ∈ l ∨ ∃ y ∈ l, x = applyUpdate now dto y
  | [], x => fun hx => absurd hx (List.not_mem_nil x)
  | t :: ts, x => by
    intro hx
    by_cases h : t.id = id
    · simp only [updateFirst, if_pos h, List.mem_cons] at hx
      rcases hx with hx | hx
      · exact Or.inr ⟨t, List.mem_cons_self t ts, hx⟩
      · exact Or.inl (List.mem_cons_of_mem t hx)
    · simp only [updateFirst, if_neg h, List.mem_cons] at hx
      rcases hx with hx | hx
      · exact Or.inl (hx ▸ List.mem_cons_self t ts)
      · rcases mem_updateFirst_snd now id dto ts x hx with h' | ⟨y, hy, hxy⟩
        · exact Or.inl (List.mem_cons_of_mem t h')
        · exact Or.inr ⟨y, List.mem_cons_of_mem t hy, hxy⟩

theorem mem_deleteFirst_snd (id : Nat) :
    ∀ (l : List Todo) (x : Todo), x ∈ (deleteFirst id l).2 → x ∈ l
  | [], x => fun hx => absurd hx (List.not_mem_nil x)
  | t :: ts, x => by
    intro hx
    by_cases h : t.id = id
    · simp only [deleteFirst, if_pos h] at hx
      exact List.mem_cons_of_mem t hx
    · simp only [deleteFirst, if_neg h, List.mem_cons] at hx
      rcases hx with hx | hx
      · exact hx ▸ List.mem_cons_self t ts
      · exact List.mem_cons_of_mem t (mem_deleteFirst_snd id ts x hx)

theorem find?_append_of_none {p : Todo → Bool} :
    ∀ l₁ l₂ : List Todo, l₁.find? p = none →
      (l₁ ++ l₂).find? p = l₂.find? p
  | [], _ => fun _ => rfl
  | t :: ts, l₂ => by
    intro hn
    by_cases h : p t
    · simp [List.find?_cons_of_pos _ h] at hn
    · rw [List.find?_cons_of_neg _ h] at hn
      rw [List.cons_append, List.find?_cons_of_neg _ h]
      exact find?_append_of_none ts l₂ hn

end TodoService

/-!
Claim theorems.
-/

/-- C1 (counterexample): the claim "no operation (including update with an
empty-string title) results in a stored Todo whose title is the empty
string" is false on the code. Starting from the empty store, `create` of a
valid record followed by `update` with body `{ title: "" }` persists a
record with an empty title, because `findByIdAndUpdate` runs no
validators. -/
theorem C1_counterexample :
    TodoService.create 0 ⟨"A", none⟩ Store.empty =
      .ok (⟨0, "A", none, false, 0, 0⟩, ⟨[⟨0, "A", none, false, 0, 0⟩], 1⟩) ∧
    (TodoService.update 1 0 ⟨some "", none, none⟩
        ⟨[⟨0, "A", none, false, 0, 0⟩], 1⟩).2 =
      ⟨[⟨0, "", none, false, 0, 1⟩], 1⟩ ∧
    ¬ (⟨[⟨0, "", none, false, 0, 1⟩], 1⟩ : Store).titlesNonempty := by
  refine ⟨rfl, rfl, ?_⟩
  decide

/-- C1 (amended): the no-empty-title invariant is preserved by `create`
(whose save-time validation rejects an empty title), by `delete`, and by
any `update` whose body does not carry an explicit empty-string `title`;
only an update carrying `title: ""` can break it. -/
theorem C1_no_empty_title_amended (now : Nat) (s : Store)
    (h : s.titlesNonempty) :
    (∀ (dto : CreateTodoDto) (t' : Todo) (s' : Store),
      TodoService.create now dto s = .ok (t', s') → s'.titlesNonempty) ∧
    (∀ id : Nat, ((TodoService.delete id s).2).titlesNonempty) ∧
    (∀ (id : Nat) (dto : UpdateTodoDto), dto.title ≠ some "" →
      ((TodoService.update now id dto s).2).titlesNonempty) := by
  refine ⟨?_, ?_, ?_⟩
  · intro dto t' s' hc
    by_cases hb : dto.title = ""
    · simp only [TodoService.create, if_pos hb] at hc
      exact Except.noConfusion hc
    · simp only [TodoService.create, if_neg hb, Except.ok.injEq,
        Prod.mk.injEq] at hc
      intro x hx
      rw [← hc.2] at hx
      rcases List.mem_append.mp hx with h' | h'
      · exact h x h'
      · rw [List.mem_singleton.mp h']; exact hb
  · intro id x hx
    exact h x (TodoService.mem_deleteFirst_snd id s.tasks x hx)
  · intro id dto hdto x hx
    rcases TodoService.mem_updateFirst_snd now id dto s.tasks x hx with
      h' | ⟨y, hy, hxy⟩
    · exact h x h'
    · rw [hxy]
      show (TodoService.applyUpdate now dto y).title ≠ ""
      cases hd : dto.title with
      | none => simp [TodoService.applyUpdate, hd]; exact h y hy
      | some v =>
        simp [TodoService.applyUpdate, hd]
        intro he
        exact hdto (by rw [hd, he])

/-- C1 (witness for the amended theorem at a concrete input). -/
theorem C1_no_empty_title_amended_witness :
    ((TodoService.update 1 0 ⟨some "B", none, none⟩
        ⟨[⟨0, "A", none, false, 0, 0⟩], 1⟩).2).titlesNonempty :=
  (C1_no_empty_title_amended 1 ⟨[⟨0, "A", none, false, 0, 0⟩], 1⟩
    (by decide)).2.2 0 ⟨some "B", none, none⟩ (by decide)

/-- C2 (counterexample): the claim that `findOne`, `update` and `delete`
"fail with a NotFoundError" on an identifier that resolves to no record
is false on the code in both of its cases. On the never-issued,
well-formed identifier "000000000000000000000005" against the empty
store, each operation succeeds and resolves to `null` (here `.ok none`),
so nothing fails; on the malformed identifier "not-an-objectid", the
ObjectId cast rejects with a `CastError`, not a `NotFoundError` (no
`NotFoundError` exists anywhere in the code). -/
theorem C2_counterexample :
    TodoService.findOneStr "000000000000000000000005" Store.empty =
      .ok none ∧
    TodoService.updateStr 0 "000000000000000000000005" ⟨none, none, none⟩
      Store.empty = .ok (none, Store.empty) ∧
    TodoService.deleteStr "000000000000000000000005" Store.empty =
      .ok (none, Store.empty) ∧
    TodoService.findOneStr "not-an-objectid" Store.empty =
      .error (TodoService.castErrorMsg "not-an-objectid") := by
  refine ⟨rfl, rfl, rfl, rfl⟩

/-- C2 (amended): a well-formed identifier (one that casts to an
ObjectId) that resolves to no stored record makes `findOne`, `update`
and `delete` each succeed with `null`, leaving the store unchanged and
raising no error; a malformed identifier (one that fails the ObjectId
cast) makes each of the three operations reject with a `CastError`. In
neither case does a `NotFoundError` arise. -/
theorem C2_unresolved_identifier_amended (now : Nat) (str : String)
    (id : Nat) (dto : UpdateTodoDto) (s : Store)
    (hcast : castObjectId str = some id)
    (h : TodoService.findOne id s = none) :
    TodoService.findOneStr str s = .ok none ∧
    TodoService.updateStr now str dto s = .ok (none, s) ∧
    TodoService.deleteStr str s = .ok (none, s) ∧
    (∀ bad : String, castObjectId bad = none →
      TodoService.findOneStr bad s =
        .error (TodoService.castErrorMsg bad) ∧
      TodoService.updateStr now bad dto s =
        .error (TodoService.castErrorMsg bad) ∧
      TodoService.deleteStr bad s =
        .error (TodoService.castErrorMsg bad)) := by
  have hu : TodoService.update now id dto s = (none, s) := by
    unfold TodoService.update
    rw [TodoService.updateFirst_snd_of_find?_none now id dto s.tasks h]
  have hd : TodoService.delete id s = (none, s) := by
    unfold TodoService.delete
    rw [TodoService.deleteFirst_snd_of_find?_none id s.tasks h]
  refine ⟨?_, ?_, ?_, ?_⟩
  · unfold TodoService.findOneStr
    rw [hcast]
    exact congrArg Except.ok h
  · unfold TodoService.updateStr
    rw [hcast]
    exact congrArg Except.ok hu
  · unfold TodoService.deleteStr
    rw [hcast]
    exact congrArg Except.ok hd
  · intro bad hbad
    refine ⟨?_, ?_, ?_⟩
    · unfold TodoService.findOneStr
      rw [hbad]
    · unfold TodoService.updateStr
      rw [hbad]
    · unfold TodoService.deleteStr
      rw [hbad]

/-- C2 (witness for the amended theorem at concrete inputs, covering
both the well-formed-unresolved case and the malformed case). -/
theorem C2_unresolved_identifier_amended_witness :
    TodoService.findOneStr "000000000000000000000005" Store.empty =
      .ok none ∧
    TodoService.deleteStr "000000000000000000000005" Store.empty =
      .ok (none, Store.empty) ∧
    TodoService.findOneStr "xyz" Store.empty =
      .error (TodoService.castErrorMsg "xyz") :=
  let h := C2_unresolved_identifier_amended 0 "000000000000000000000005" 5
    ⟨none, none, none⟩ Store.empty (by decide) (by decide)
  ⟨h.1, h.2.2.1, (h.2.2.2 "xyz" (by decide)).1⟩

/-- C3 (counterexample): the claimed error translation does not exist in
the endpoint layer. A create whose body fails Mongoose validation is
answered with 500 (the default exception filter), not 400; and a lookup
of an absent identifier is answered with 200 and an empty body, not
404. -/
theorem C3_counterexample :
    (TodoController.create 0 ⟨"", some "x"⟩ Store.empty).1 =
      ⟨500, .err 500 "Internal server error"⟩ ∧
    (TodoController.create 0 ⟨"", some "x"⟩ Store.empty).1.status ≠ 400 ∧
    TodoController.findOne 5 Store.empty = ⟨200, .empty⟩ ∧
    (TodoController.findOne 5 Store.empty).status ≠ 404 := by
  refine ⟨rfl, by decide, rfl, by decide⟩

/-- C3 (amended): the endpoint layer performs no error translation of its
own. A `ValidationError` raised by the store on create reaches the
framework's default exception filter and yields HTTP 500 with its generic
error body; a `NotFoundError` never arises, since an identifier that
resolves to no record yields a success status 200 with an empty body on
findOne, update and delete; a successful create yields 201 with the new
record; a successful delete yields 200 with the removed record. -/
theorem C3_status_mapping_amended (now id : Nat) (dto : CreateTodoDto)
    (udto : UpdateTodoDto) (s : Store) :
    (dto.title = "" →
      TodoController.create now dto s =
        ((⟨500, .err 500 "Internal server error"⟩ : HttpResponse), s)) ∧
    (dto.title ≠ "" →
      ∃ (t : Todo) (s' : Store),
        TodoController.create now dto s = ((⟨201, .task t⟩ : HttpResponse), s')) ∧
    (TodoService.findOne id s = none →
      TodoController.findOne id s = ⟨200, .empty⟩ ∧
      TodoController.update now id udto s = ((⟨200, .empty⟩ : HttpResponse), s) ∧
      TodoController.delete id s = ((⟨200, .empty⟩ : HttpResponse), s)) ∧
    (∀ T : Todo, TodoService.findOne id s = some T →
      (TodoController.delete id s).1 = ⟨200, .task T⟩) := by
  refine ⟨?_, ?_, ?_, ?_⟩
  · intro hb
    unfold TodoController.create TodoService.create
    rw [if_pos hb]
  · intro hb
    refine ⟨⟨s.nextId, dto.title, dto.description, false, now, now⟩,
      ⟨s.tasks ++ [⟨s.nextId, dto.title, dto.description, false, now, now⟩],
        s.nextId + 1⟩, ?_⟩
    unfold TodoController.create TodoService.create
    rw [if_neg hb]
  · intro h
    have hu : TodoService.update now id udto s = (none, s) := by
      unfold TodoService.update
      rw [TodoService.updateFirst_snd_of_find?_none now id udto s.tasks h]
    have hd : TodoService.delete id s = (none, s) := by
      unfold TodoService.delete
      rw [TodoService.deleteFirst_snd_of_find?_none id s.tasks h]
    refine ⟨?_, ?_, ?_⟩
    · unfold TodoController.findOne
      rw [h]
    · unfold TodoController.update
      rw [hu]
    · unfold TodoController.delete
      rw [hd]
  · intro T hT
    have h1 : (TodoService.delete id s).1 = some T := by
      show (TodoService.deleteFirst id s.tasks).1 = some T
      rw [TodoService.deleteFirst_fst]
      exact hT
    unfold TodoController.delete
    rcases he : TodoService.delete id s with ⟨r, s'⟩
    rw [he] at h1
    simp at h1
    rw [h1]

/-- C3 (witness for the amended theorem at a concrete input). -/
theorem C3_status_mapping_amended_witness :
    TodoController.create 0 ⟨"", none⟩ Store.empty =
      ((⟨500, .err 500 "Internal server error"⟩ : HttpResponse), Store.empty) ∧
    TodoController.findOne 5 Store.empty = ⟨200, .empty⟩ :=
  ⟨(C3_status_mapping_amended 0 5 ⟨"", none⟩ ⟨none, none, none⟩
      Store.empty).1 (by decide),
   ((C3_status_mapping_amended 0 5 ⟨"", none⟩ ⟨none, none, none⟩
      Store.empty).2.2.1 (by decide)).1⟩

/-- C4: for every well-formed store and every create body with a
non-empty title, looking the returned identifier back up returns the
inserted record: matching title and description, `completed = false`,
and `createdAt = updatedAt`. -/
theorem C4_insert_roundtrip (now : Nat) (dto : CreateTodoDto) (s : Store)
    (hwf : s.WF) (ht : dto.title ≠ "") :
    ∃ (t : Todo) (s' : Store),
      TodoService.create now dto s = .ok (t, s') ∧
      TodoService.findOne t.id s' = some t ∧
      t.title = dto.title ∧ t.description = dto.description ∧
      t.completed = false ∧ t.createdAt = t.updatedAt := by
  refine ⟨⟨s.nextId, dto.title, dto.description, false, now, now⟩,
    ⟨s.tasks ++ [⟨s.nextId, dto.title, dto.description, false, now, now⟩],
      s.nextId + 1⟩, ?_, ?_, rfl, rfl, rfl, rfl⟩
  · unfold TodoService.create
    rw [if_neg ht]
  · show (s.tasks ++
        [(⟨s.nextId, dto.title, dto.description, false, now, now⟩ : Todo)]).find?
        (fun t => t.id = s.nextId) = _
    rw [TodoService.find?_append_of_none]
    · rw [List.find?_cons_of_pos _ (by simp)]
    · exact List.find?_eq_none.mpr (fun x hx => by
        simpa using Nat.ne_of_lt (hwf.2 x hx))

/-- C4 (witness at a concrete input). -/
theorem C4_insert_roundtrip_witness :
    ∃ (t : Todo) (s' : Store),
      TodoService.create 7 ⟨"Buy milk", some "2L"⟩ Store.empty = .ok (t, s') ∧
      TodoService.findOne t.id s' = some t ∧
      t.title = "Buy milk" ∧ t.description = some "2L" ∧
      t.completed = false ∧ t.createdAt = t.updatedAt :=
  C4_insert_roundtrip 7 ⟨"Buy milk", some "2L"⟩ Store.empty
    (by decide) (by decide)

/-- C5: updating a stored record changes exactly the fields present in
the body, leaves `id`, `createdAt` and every absent field unchanged,
re-stamps `updatedAt` to the current time (which is at least the old
`updatedAt` whenever the clock has not gone backwards), and the record
returned is the record stored after the update. -/
theorem C5_partial_update (now id : Nat) (dto : UpdateTodoDto) (s : Store)
    (T : Todo) (hT : TodoService.findOne id s = some T)
    (hclock : T.updatedAt ≤ now) :
    ∃ (T' : Todo) (s' : Store),
      TodoService.update now id dto s = (some T', s') ∧
      T'.id = T.id ∧ T'.createdAt = T.createdAt ∧
      T'.title = dto.title.getD T.title ∧
      T'.completed = dto.completed.getD T.completed ∧
      (∀ d, dto.description = some d → T'.description = some d) ∧
      (dto.description = none → T'.description = T.description) ∧
      T'.updatedAt = now ∧ T.updatedAt ≤ T'.updatedAt ∧
      TodoService.findOne id s' = some T' := by
  have hT' : s.tasks.find? (fun t => t.id = id) = some T := hT
  have h1 : (TodoService.update now id dto s).1 =
      some (TodoService.applyUpdate now dto T) := by
    show (TodoService.updateFirst now id dto s.tasks).1 = _
    rw [TodoService.updateFirst_fst, hT']
    rfl
  refine ⟨TodoService.applyUpdate now dto T, (TodoService.update now id dto s).2,
    ?_, rfl, rfl, rfl, rfl, ?_, ?_, rfl, hclock, ?_⟩
  · rw [← h1]
  · intro d hd
    simp [TodoService.applyUpdate, hd]
  · intro hd
    simp [TodoService.applyUpdate, hd]
  · show ((TodoService.updateFirst now id dto s.tasks).2).find?
        (fun t => t.id = id) = _
    rw [TodoService.find?_updateFirst_self, hT']
    rfl

/-- C5 (witness at a concrete input). -/
theorem C5_partial_update_witness :
    ∃ (T' : Todo) (s' : Store),
      TodoService.update 3 0 ⟨none, some true, none⟩
        ⟨[⟨0, "A", none, false, 0, 0⟩], 1⟩ = (some T', s') ∧
      T'.id = 0 ∧ T'.createdAt = 0 ∧
      T'.title = (Option.none).getD "A" ∧
      T'.completed = (some true).getD false ∧
      (∀ d, (Option.none : Option String) = some d → T'.description = some d) ∧
      ((Option.none : Option String) = none →
        T'.description = (none : Option String)) ∧
      T'.updatedAt = 3 ∧ 0 ≤ T'.updatedAt ∧
      TodoService.findOne 0 s' = some T' :=
  C5_partial_update 3 0 ⟨none, some true, none⟩
    ⟨[⟨0, "A", none, false, 0, 0⟩], 1⟩ ⟨0, "A", none, false, 0, 0⟩
    (by decide) (by decide)

/-- C6 (counterexample): after a successful delete, the claim says a
subsequent getById of the same identifier "fails with NotFoundError".
On the code, the lookup after the delete resolves to `null` and the
HTTP layer answers 200 with an empty body: nothing fails and no
`NotFoundError` exists anywhere in the code. -/
theorem C6_counterexample :
    TodoService.delete 0 ⟨[⟨0, "A", none, false, 0, 0⟩], 1⟩ =
      (some ⟨0, "A", none, false, 0, 0⟩, ⟨[], 1⟩) ∧
    TodoService.findOne 0 (⟨[], 1⟩ : Store) = none ∧
    TodoController.findOne 0 (⟨[], 1⟩ : Store) = ⟨200, .empty⟩ ∧
    (TodoController.findOne 0 (⟨[], 1⟩ : Store)).status ≠ 404 := by
  refine ⟨rfl, rfl, rfl, by decide⟩

/-- C6 (amended): deleting a stored record removes it and returns the
record exactly as it existed immediately before removal, and after the
delete succeeds a subsequent getById of the same identifier resolves to
`null` — served over HTTP as 200 with an empty body — rather than
failing with a `NotFoundError`. -/
theorem C6_delete_then_get (id : Nat) (s : Store) (T : Todo)
    (hwf : s.WF) (hT : TodoService.findOne id s = some T) :
    ∃ s' : Store, TodoService.delete id s = (some T, s') ∧
      TodoService.findOne id s' = none ∧
      TodoController.findOne id s' = ⟨200, .empty⟩ := by
  have hT' : s.tasks.find? (fun t => t.id = id) = some T := hT
  have hnone : TodoService.findOne id (TodoService.delete id s).2 = none :=
    TodoService.find?_deleteFirst_self id s.tasks hwf.1
  refine ⟨(TodoService.delete id s).2, ?_, hnone, ?_⟩
  · have h1 : (TodoService.delete id s).1 = some T := by
      show (TodoService.deleteFirst id s.tasks).1 = some T
      rw [TodoService.deleteFirst_fst]
      exact hT'
    rw [← h1]
  · unfold TodoController.findOne
    rw [hnone]

/-- C6 (witness at a concrete input). -/
theorem C6_delete_then_get_witness :
    ∃ s' : Store,
      TodoService.delete 0 ⟨[⟨0, "A", none, false, 0, 0⟩], 1⟩ =
        (some ⟨0, "A", none, false, 0, 0⟩, s') ∧
      TodoService.findOne 0 s' = none ∧
      TodoController.findOne 0 s' = ⟨200, .empty⟩ :=
  C6_delete_then_get 0 ⟨[⟨0, "A", none, false, 0, 0⟩], 1⟩
    ⟨0, "A", none, false, 0, 0⟩ (by decide) (by decide)

/-- C7: a create whose title is the empty string fails with the Mongoose
required-title `ValidationError`, for any description and store; a create
with the non-empty title "Buy milk" and no description succeeds with the
description left unset. -/
theorem C7_insert_validation (now : Nat) (s : Store) (d : Option String) :
    TodoService.create now ⟨"", d⟩ s = .error TodoService.requiredTitleMsg ∧
    (∀ dto : CreateTodoDto, dto.title = "" →
      TodoService.create now dto s = .error TodoService.requiredTitleMsg) ∧
    ∃ (t : Todo) (s' : Store),
      TodoService.create now ⟨"Buy milk", none⟩ s = .ok (t, s') ∧
      t.title = "Buy milk" ∧ t.description = none := by
  refine ⟨?_, ?_, ⟨s.nextId, "Buy milk", none, false, now, now⟩,
    ⟨s.tasks ++ [⟨s.nextId, "Buy milk", none, false, now, now⟩],
      s.nextId + 1⟩, ?_, rfl, rfl⟩
  · unfold TodoService.create
    rw [if_pos rfl]
  · intro dto hb
    unfold TodoService.create
    rw [if_pos hb]
  · unfold TodoService.create
    rw [if_neg (by decide)]

/-- C7 (witness discharging the hypothesis of the universally quantified
conjunct at a concrete input). -/
theorem C7_insert_validation_witness :
    TodoService.create 0 ⟨"", some "x"⟩ Store.empty =
      .error TodoService.requiredTitleMsg :=
  (C7_insert_validation 0 Store.empty (some "x")).2.1 ⟨"", some "x"⟩ rfl

/-- C8 (counterexample): the claim that every mutating action re-issues a
full list fetch after its HTTP call completes, regardless of the
response's outcome, is false for create: `createTodo` calls
`fetchTodos()` only inside `if (response.ok)`, so a completed non-ok
response (for instance a 500) triggers no re-fetch. -/
theorem C8_counterexample :
    Page.createTodoRefetches "A" (FetchResult.response false) = false := by
  decide

/-- C8 (amended): after a completed HTTP response, toggle, edit-save and
delete always re-issue the full list fetch whatever the status, while
create re-issues it exactly when the response is ok; no action re-fetches
when the fetch itself throws (network failure). The create and edit
handlers only issue a call at all when their title input is not blank. -/
theorem C8_refetch_amended (title editTitle : String) (ok : Bool)
    (h1 : Page.isBlank title = false) (h2 : Page.isBlank editTitle = false) :
    Page.createTodoRefetches title (.response ok) = ok ∧
    Page.toggleCompleteRefetches (.response ok) = true ∧
    Page.saveEditRefetches editTitle (.response ok) = true ∧
    Page.deleteTodoRefetches true (.response ok) = true ∧
    Page.createTodoRefetches title .thrown = false ∧
    Page.toggleCompleteRefetches .thrown = false ∧
    Page.saveEditRefetches editTitle .thrown = false ∧
    Page.deleteTodoRefetches true .thrown = false := by
  unfold Page.createTodoRefetches Page.toggleCompleteRefetches
    Page.saveEditRefetches Page.deleteTodoRefetches
  simp [h1, h2]

/-- C8 (witness for the amended theorem at a concrete input). -/
theorem C8_refetch_amended_witness :
    Page.createTodoRefetches "A" (.response true) = true ∧
    Page.toggleCompleteRefetches (.response true) = true ∧
    Page.saveEditRefetches "B" (.response true) = true ∧
    Page.deleteTodoRefetches true (.response true) = true ∧
    Page.createTodoRefetches "A" .thrown = false ∧
    Page.toggleCompleteRefetches .thrown = false ∧
    Page.saveEditRefetches "B" .thrown = false ∧
    Page.deleteTodoRefetches true .thrown = false :=
  C8_refetch_amended "A" "B" true (by decide) (by decide)

/-- C9: on an identifier that resolves to no record, the service
operations return `null` rather than raising an error, and each HTTP
handler passes that `null` through, producing a success status 200 with
an empty body (and leaving the store unchanged). -/
theorem C9_null_passthrough (now id : Nat) (dto : UpdateTodoDto) (s : Store)
    (h : TodoService.findOne id s = none) :
    TodoService.update now id dto s = (none, s) ∧
    TodoService.delete id s = (none, s) ∧
    TodoController.findOne id s = ⟨200, .empty⟩ ∧
    TodoController.update now id dto s = ((⟨200, .empty⟩ : HttpResponse), s) ∧
    TodoController.delete id s = ((⟨200, .empty⟩ : HttpResponse), s) := by
  have hu : TodoService.update now id dto s = (none, s) := by
    unfold TodoService.update
    rw [TodoService.updateFirst_snd_of_find?_none now id dto s.tasks h]
  have hd : TodoService.delete id s = (none, s) := by
    unfold TodoService.delete
    rw [TodoService.deleteFirst_snd_of_find?_none id s.tasks h]
  refine ⟨hu, hd, ?_, ?_, ?_⟩
  · unfold TodoController.findOne
    rw [h]
  · unfold TodoController.update
    rw [hu]
  · unfold TodoController.delete
    rw [hd]

/-- C9 (witness at a concrete input). -/
theorem C9_null_passthrough_witness :
    TodoService.update 0 5 ⟨none, none, none⟩ Store.empty =
      (none, Store.empty) ∧
    TodoService.delete 5 Store.empty = (none, Store.empty) ∧
    TodoController.findOne 5 Store.empty = ⟨200, .empty⟩ ∧
    TodoController.update 0 5 ⟨none, none, none⟩ Store.empty =
      ((⟨200, .empty⟩ : HttpResponse), Store.empty) ∧
    TodoController.delete 5 Store.empty =
      ((⟨200, .empty⟩ : HttpResponse), Store.empty) :=
  C9_null_passthrough 0 5 ⟨none, none, none⟩ Store.empty (by decide)

/-- C10: every operation is local to its key: update and delete leave
the record resolved by any other identifier unchanged, and a successful
create leaves every pre-existing record in place, appending exactly one
new record. -/
theorem C10_frame (now id id' : Nat) (dto : UpdateTodoDto)
    (cdto : CreateTodoDto) (s : Store) (hne : id' ≠ id) :
    TodoService.findOne id' (TodoService.update now id dto s).2 =
      TodoService.findOne id' s ∧
    TodoService.findOne id' (TodoService.delete id s).2 =
      TodoService.findOne id' s ∧
    (∀ (t : Todo) (s' : Store), TodoService.create now cdto s = .ok (t, s') →
      s'.tasks = s.tasks ++ [t]) := by
  refine ⟨?_, ?_, ?_⟩
  · show ((TodoService.updateFirst now id dto s.tasks).2).find?
        (fun t => t.id = id') = s.tasks.find? (fun t => t.id = id')
    exact TodoService.find?_updateFirst_other now id id' dto hne s.tasks
  · show ((TodoService.deleteFirst id s.tasks).2).find?
        (fun t => t.id = id') = s.tasks.find? (fun t => t.id = id')
    exact TodoService.find?_deleteFirst_other id id' hne s.tasks
  · intro t s' hc
    by_cases hb : cdto.title = ""
    · simp only [TodoService.create, if_pos hb] at hc
      exact Except.noConfusion hc
    · simp only [TodoService.create, if_neg hb, Except.ok.injEq,
        Prod.mk.injEq] at hc
      rw [← hc.2, ← hc.1]

/-- C10 (witness at a concrete input). -/
theorem C10_frame_witness :
    TodoService.findOne 1
        (TodoService.update 5 0 ⟨none, some true, none⟩
          ⟨[⟨0, "A", none, false, 0, 0⟩, ⟨1, "B", none, false, 0, 0⟩], 2⟩).2 =
      TodoService.findOne 1
        ⟨[⟨0, "A", none, false, 0, 0⟩, ⟨1, "B", none, false, 0, 0⟩], 2⟩ ∧
    TodoService.findOne 1
        (TodoService.delete 0
          ⟨[⟨0, "A", none, false, 0, 0⟩, ⟨1, "B", none, false, 0, 0⟩], 2⟩).2 =
      TodoService.findOne 1
        ⟨[⟨0, "A", none, false, 0, 0⟩, ⟨1, "B", none, false, 0, 0⟩], 2⟩ ∧
    (∀ (t : Todo) (s' : Store),
      TodoService.create 5 ⟨"C", none⟩
          ⟨[⟨0, "A", none, false, 0, 0⟩, ⟨1, "B", none, false, 0, 0⟩], 2⟩ =
        .ok (t, s') →
      s'.tasks =
        [⟨0, "A", none, false, 0, 0⟩, ⟨1, "B", none, false, 0, 0⟩] ++ [t]) :=
  C10_frame 5 0 1 ⟨none, some true, none⟩ ⟨"C", none⟩
    ⟨[⟨0, "A", none, false, 0, 0⟩, ⟨1, "B", none, false, 0, 0⟩], 2⟩
    (by decide)
